import Mathlib

/-!
Shallow embedding of `src/vecs/client.py` (the `vecs` collection client).

The store is modelled as an explicit state: the catalog rows the client's
metadata queries can see (tables with their schema, kind, `vec` attribute and
declared vector width `atttypmod`), plus the set of existing schemas and
extensions.  Stateful client operations become functions
`StoreState → StoreState × Except VecsError α`: the returned state is the store
as it is when the operation returns or raises (both raises in
`get_or_create_collection` happen before the only mutating call, so errors
leave the state unchanged).  Python `Optional[int]` becomes `Option Int`, and
Python truthiness of an `Optional[int]` (`if collection_dimension:`) is
modelled by `intTruthy`.
-/

deriving instance DecidableEq for Except

namespace Vecs

/-- A catalog row as seen by the client's metadata queries: a relation in some
schema, with its kind (`relkind = 'r'` means plain table), whether it has an
attribute named `vec`, and that attribute's `atttypmod` (the declared vector
width). -/
structure PgTable where
  relname : String
  relnamespace : String
  relkindIsPlain : Bool
  hasVecAttr : Bool
  atttypmod : Int
deriving Repr, DecidableEq

/-- The visible state of the backing store. -/
structure StoreState where
  tables : List PgTable
  schemas : List String
  extensions : List String
deriving Repr, DecidableEq

/-- The Postgres starts-with test `relname ^@ '_'` used in the client's
metadata queries, written over the string's character list. -/
def startsWithUnderscore (s : String) : Bool :=
  match s.data with
  | [] => false
  | c :: _ => c == '_'

/-- The `where` clause of the metadata query in `get_or_create_collection` and
`get_collection`: schema `vecs`, plain table (`relkind = 'r'`), attribute named
`vec`, name not starting with `_`, and name exactly equal to the requested
name. -/
def matchesVecsQuery (name : String) (t : PgTable) : Bool :=
  t.relnamespace == "vecs" && t.relkindIsPlain && t.hasVecAttr
    && !startsWithUnderscore t.relname && t.relname == name

/-- The metadata query's `fetchone()`: the first catalog row matching the
query, if any. -/
def lookupVecsRow (st : StoreState) (name : String) : Option PgTable :=
  st.tables.find? (matchesVecsQuery name)

/-- Lines 112-118 of `client.py`: `collection_dimension` is the row's
`embedding_dim` when the query returned a row, else `None`. -/
def lookupCollectionDimension (st : StoreState) (name : String) : Option Int :=
  (lookupVecsRow st name).map (fun t => t.atttypmod)

/-- Python truthiness of an `Optional[int]`: `None` and `0` are falsy, every
other integer is truthy. -/
def intTruthy : Option Int → Bool
  | none => false
  | some d => d != 0

/-- The error values the client raises: a bare Python `Exception` with a
message, or one of the dedicated classes from `vecs.exc`. -/
inductive VecsError where
  | exc (msg : String)
  | collectionNotFound (msg : String)
  | collectionAlreadyExists (msg : String)
deriving Repr, DecidableEq

/-- The kind of a raised error: the Python exception class a caller can catch
on, ignoring the message. -/
def VecsError.kind : VecsError → String
  | .exc _ => "Exception"
  | .collectionNotFound _ => "CollectionNotFound"
  | .collectionAlreadyExists _ => "CollectionAlreadyExists"

/-- An adapter, reduced to the single attribute the client consumes:
`exported_dimension`, `None` when the adapter declares no fixed width. -/
structure Adapter where
  exported_dimension : Option Int
deriving Repr, DecidableEq

/-- A `Collection` descriptor as constructed by the client: name, dimension
and the optional adapter passed through. -/
structure Collection where
  name : String
  dimension : Int
  adapter : Option Adapter
deriving Repr, DecidableEq

/-- Line 126 of `client.py`: `adapter.exported_dimension if adapter else None`. -/
def adapterDimension : Option Adapter → Option Int
  | some a => a.exported_dimension
  | none => none

/-- Lines 120-130 of `client.py`: the set of distinct non-`None` values among
the caller-supplied dimension, the dimension of the existing table, and the
adapter-declared dimension.  Represented as a deduplicated list; only its
length and its content in the singleton case are ever used. -/
def reportedDimensions (dimension collectionDimension adapterDim : Option Int) :
    List Int :=
  ([dimension, collectionDimension, adapterDim].filterMap id).dedup

/-- Modelled from the spec: `Collection._create` is in `vecs/collection.py`,
not under `src/`.  Per the spec it physically creates the table with a
vector-typed column at the descriptor's width, and a create targeting a name
that already has a physical table in the namespace fails with an
already-exists error. -/
def Collection.create (c : Collection) (st : StoreState) :
    StoreState × Except VecsError Collection :=
  if st.tables.any (fun t => t.relnamespace == "vecs" && t.relname == c.name) then
    (st, .error (.collectionAlreadyExists "Collection with requested name already exists"))
  else
    ({st with tables := st.tables ++ [⟨c.name, "vecs", true, true, c.dimension⟩]},
     .ok c)

/-- Modelled from the spec: `Collection._drop` is in `vecs/collection.py`, not
under `src/`.  Per the spec it removes the named physical table (and its
dependent objects) and fails with a not-found error if no such table exists.
Only the descriptor's name is consulted. -/
def Collection.drop (c : Collection) (st : StoreState) :
    StoreState × Except VecsError Unit :=
  if st.tables.any (fun t => t.relnamespace == "vecs" && t.relname == c.name) then
    ({st with tables :=
        st.tables.filter (fun t => !(t.relnamespace == "vecs" && t.relname == c.name))},
     .ok ())
  else
    (st, .error (.collectionNotFound "Collection not found"))

/-- Modelled from the spec: `Collection._list_collections` is in
`vecs/collection.py`, not under `src/`.  Per the spec, `List()` returns one
descriptor per physical table in the managed namespace that carries a
vector-typed column and whose name does not start with the reserved internal
prefix, the dimension taken directly from the physical column width. -/
def Collection.list_collections (st : StoreState) : List Collection :=
  (st.tables.filter (fun t =>
      t.relnamespace == "vecs" && t.relkindIsPlain && t.hasVecAttr
        && !startsWithUnderscore t.relname)).map
    (fun t => ⟨t.relname, t.atttypmod, none⟩)

/-- Lines 69-149 of `client.py`: `Client.get_or_create_collection`.  Looks up
the existing table's width, builds the set of distinct reported dimensions,
raises on an empty set or on more than one distinct value, otherwise resolves
the single value, and reuses the existing table when `collection_dimension` is
truthy, else creates. -/
def Client.get_or_create_collection (st : StoreState) (name : String)
    (dimension : Option Int) (adapter : Option Adapter) :
    StoreState × Except VecsError Collection :=
  let collectionDimension := lookupCollectionDimension st name
  let reported := reportedDimensions dimension collectionDimension (adapterDimension adapter)
  if reported.length = 0 then
    (st, .error (.exc "One of dimension or adapter must provide a dimension"))
  else if reported.length > 1 then
    (st, .error (.exc "Dimensions reported by adapter, dimension, and collection do not match"))
  else
    let resolvedDimension : Int := reported.headI
    let collection : Collection := ⟨name, resolvedDimension, adapter⟩
    if intTruthy collectionDimension then
      (st, .ok collection)
    else
      collection.create st

/-- Lines 170-214 of `client.py`: `Client.get_collection`.  Runs the same
metadata query; raises `CollectionNotFound` when it returns no row, else
returns a descriptor built from the row's name and `embedding_dim`. -/
def Client.get_collection (st : StoreState) (name : String) :
    Except VecsError Collection :=
  match lookupVecsRow st name with
  | none => .error (.collectionNotFound "No collection found with requested name")
  | some t => .ok ⟨t.relname, t.atttypmod, none⟩

/-- Line 225 of `client.py`: `Client.list_collections` delegates to
`Collection._list_collections`. -/
def Client.list_collections (st : StoreState) : List Collection :=
  Collection.list_collections st

/-- Line 242 of `client.py`: the descriptor `delete_collection` constructs,
`Collection(name, -1, self)`. -/
def Client.deleteDescriptor (name : String) : Collection :=
  ⟨name, -1, none⟩

/-- Lines 227-243 of `client.py`: `Client.delete_collection` constructs the
sentinel descriptor and calls `_drop` on it. -/
def Client.delete_collection (st : StoreState) (name : String) :
    StoreState × Except VecsError Unit :=
  (Client.deleteDescriptor name).drop st

/-- A bootstrap statement as executed by `Client.__init__`; both forms carry
`if not exists` semantics. -/
inductive BootstrapStmt where
  | createSchemaIfNotExists (name : String)
  | createExtensionIfNotExists (name : String)
deriving Repr, DecidableEq

/-- Execution of one bootstrap statement against the store: `create ... if not
exists` adds the object only when absent. -/
def execStmt (st : StoreState) : BootstrapStmt → StoreState
  | .createSchemaIfNotExists s =>
      if s ∈ st.schemas then st else {st with schemas := st.schemas ++ [s]}
  | .createExtensionIfNotExists e =>
      if e ∈ st.extensions then st else {st with extensions := st.extensions ++ [e]}

/-- Lines 64-67 of `client.py`: the two statements `Client.__init__` executes,
in order, inside the single `sess.begin()` transaction. -/
def Client.bootstrapStmts : List BootstrapStmt :=
  [.createSchemaIfNotExists "vecs", .createExtensionIfNotExists "vector"]

/-- Execution of one transaction: its statements applied in order as one
atomic state update. -/
def runTransaction (st : StoreState) (stmts : List BootstrapStmt) : StoreState :=
  stmts.foldl execStmt st

/-- Lines 50-67 of `client.py`: `Client.__init__` bootstraps the store by
running `Client.bootstrapStmts` as one transaction before any collection
operation can run. -/
def Client.init (st : StoreState) : StoreState :=
  runTransaction st Client.bootstrapStmts

/-! Helper lemmas shared by the claim theorems. -/

/-- Deduplicating a singleton list is the identity. -/
lemma dedup_one (d : Int) : ([d] : List Int).dedup = [d] := by
  rw [List.dedup_cons_of_not_mem (List.not_mem_nil d), List.dedup_nil]

/-- Deduplicating a doubled element yields the singleton. -/
lemma dedup_two (d : Int) : ([d, d] : List Int).dedup = [d] := by
  rw [List.dedup_cons_of_mem (List.mem_singleton.mpr rfl), dedup_one]

/-- Deduplicating a tripled element yields the singleton. -/
lemma dedup_three (d : Int) : ([d, d, d] : List Int).dedup = [d] := by
  rw [List.dedup_cons_of_mem (List.mem_cons_self d [d]), dedup_two]

/-- The metadata query finds nothing when no table in the `vecs` schema has
the requested name. -/
lemma find?_vecs_none (st : StoreState) (name : String)
    (hfree : ∀ t ∈ st.tables, ¬(t.relnamespace = "vecs" ∧ t.relname = name)) :
    st.tables.find? (matchesVecsQuery name) = none := by
  refine List.find?_eq_none.mpr fun t ht hp => ?_
  unfold matchesVecsQuery at hp
  simp only [Bool.and_eq_true, beq_iff_eq] at hp
  exact hfree t ht ⟨hp.1.1.1.1, hp.2⟩

/-- Without a table of the requested name in the `vecs` schema,
`collection_dimension` is `None`. -/
lemma lookup_eq_none_of_no_table (st : StoreState) (name : String)
    (hfree : ∀ t ∈ st.tables, ¬(t.relnamespace = "vecs" ∧ t.relname = name)) :
    lookupCollectionDimension st name = none := by
  unfold lookupCollectionDimension lookupVecsRow
  rw [find?_vecs_none st name hfree]
  rfl

/-- Without a table of the requested name in the `vecs` schema, the existence
test inside `Collection._create` is false. -/
lemma any_vecs_name_false (st : StoreState) (name : String)
    (hfree : ∀ t ∈ st.tables, ¬(t.relnamespace = "vecs" ∧ t.relname = name)) :
    (st.tables.any fun t => t.relnamespace == "vecs" && t.relname == name) = false := by
  rw [← Bool.not_eq_true, List.any_eq_true]
  rintro ⟨t, ht, hp⟩
  simp only [Bool.and_eq_true, beq_iff_eq] at hp
  exact hfree t ht ⟨hp.1, hp.2⟩

/-- When the hints that are present all agree on `d` and the table reports
`d`, the set of distinct reported dimensions is exactly `[d]`. -/
lemma reported_agree (d : Int) (dim ad : Option Int)
    (hdim : dim = none ∨ dim = some d) (had : ad = none ∨ ad = some d) :
    reportedDimensions dim (some d) ad = [d] := by
  rcases hdim with rfl | rfl <;> rcases had with rfl | rfl <;>
    unfold reportedDimensions
  · exact dedup_one d
  · exact dedup_two d
  · exact dedup_two d
  · exact dedup_three d

/-- With a caller dimension as the only source, the set of distinct reported
dimensions is exactly `[d]`. -/
lemma reported_single (d : Int) :
    reportedDimensions (some d) none none = [d] := by
  unfold reportedDimensions
  exact dedup_one d

/-- Reuse path of `get_or_create_collection`: when the existing table reports
a truthy width `d` and every present hint agrees on `d`, the call returns the
descriptor with the store untouched. -/
lemma get_or_create_reuse (st : StoreState) (name : String) (d : Int)
    (dimension : Option Int) (adapter : Option Adapter)
    (hlook : lookupCollectionDimension st name = some d) (hd : d ≠ 0)
    (hdim : dimension = none ∨ dimension = some d)
    (had : adapterDimension adapter = none ∨ adapterDimension adapter = some d) :
    Client.get_or_create_collection st name dimension adapter
      = (st, .ok ⟨name, d, adapter⟩) := by
  simp only [Client.get_or_create_collection, hlook,
    reported_agree d dimension (adapterDimension adapter) hdim had]
  simp [intTruthy, hd]

/-- Create path of `get_or_create_collection`: with only the caller dimension
present and no table of the requested name in the `vecs` schema, the call
appends the new table and returns the descriptor. -/
lemma get_or_create_creates (st : StoreState) (name : String) (d : Int)
    (hfree : ∀ t ∈ st.tables, ¬(t.relnamespace = "vecs" ∧ t.relname = name)) :
    Client.get_or_create_collection st name (some d) none
      = ({st with tables := st.tables ++ [⟨name, "vecs", true, true, d⟩]},
         .ok ⟨name, d, none⟩) := by
  simp only [Client.get_or_create_collection, lookup_eq_none_of_no_table st name hfree,
    adapterDimension, reported_single d, List.length_cons, List.length_nil, intTruthy]
  norm_num
  unfold Collection.create
  rw [any_vecs_name_false st name hfree]
  simp

/-- After the create path has appended the table, the metadata query finds it
and reports width `d`, provided the name lacks the reserved prefix. -/
lemma lookup_after_create (st : StoreState) (name : String) (d : Int)
    (hname : startsWithUnderscore name = false)
    (hfree : ∀ t ∈ st.tables, ¬(t.relnamespace = "vecs" ∧ t.relname = name)) :
    lookupCollectionDimension
        {st with tables := st.tables ++ [⟨name, "vecs", true, true, d⟩]} name
      = some d := by
  unfold lookupCollectionDimension lookupVecsRow
  rw [List.find?_append, find?_vecs_none st name hfree, Option.none_or]
  have hp : matchesVecsQuery name ⟨name, "vecs", true, true, d⟩ = true := by
    unfold matchesVecsQuery
    simp [hname]
  rw [List.find?_cons_of_pos _ hp]
  rfl

/-! Claim theorems. -/

/-- Claim C1: for every call to `get_or_create_collection` in which the set of
distinct non-absent values among the caller-supplied dimension, the existing
table's dimension and the adapter-declared dimension has more than one
element, the call fails with the dimension-conflict error and the store is
neither created into nor mutated (the returned state is the input state). -/
theorem get_or_create_dimension_conflict (st : StoreState) (name : String)
    (dimension : Option Int) (adapter : Option Adapter)
    (h : 1 < (reportedDimensions dimension (lookupCollectionDimension st name)
        (adapterDimension adapter)).length) :
    Client.get_or_create_collection st name dimension adapter
      = (st, .error (.exc "Dimensions reported by adapter, dimension, and collection do not match")) := by
  simp only [Client.get_or_create_collection]
  rw [if_neg (by omega), if_pos h]

/-- Witness for C1: a conflicting caller dimension 1 and adapter dimension 2
on an empty store produce the dimension-conflict error and leave the store
unchanged. -/
theorem get_or_create_dimension_conflict_witness :
    Client.get_or_create_collection ⟨[], ["vecs"], ["vector"]⟩ "docs"
        (some 1) (some ⟨some 2⟩)
      = (⟨[], ["vecs"], ["vector"]⟩,
         .error (.exc "Dimensions reported by adapter, dimension, and collection do not match")) :=
  get_or_create_dimension_conflict ⟨[], ["vecs"], ["vector"]⟩ "docs"
    (some 1) (some ⟨some 2⟩) (by decide)

/-- Claim C2: a call to `get_or_create_collection` with no caller dimension,
no adapter-declared dimension, and no physical table of the requested name in
the `vecs` schema fails with the configuration error and the store is
unchanged (the returned state is the input state). -/
theorem get_or_create_configuration_error (st : StoreState) (name : String)
    (dimension : Option Int) (adapter : Option Adapter)
    (hdim : dimension = none)
    (had : adapterDimension adapter = none)
    (hfree : ∀ t ∈ st.tables, ¬(t.relnamespace = "vecs" ∧ t.relname = name)) :
    Client.get_or_create_collection st name dimension adapter
      = (st, .error (.exc "One of dimension or adapter must provide a dimension")) := by
  subst hdim
  simp only [Client.get_or_create_collection, lookup_eq_none_of_no_table st name hfree, had,
    reportedDimensions, List.filterMap_nil, id_eq, List.filterMap_cons_none, List.dedup_nil,
    List.length_nil, if_pos]

/-- Witness for C2: on an empty store with no hints at all, the call fails
with the configuration error. -/
theorem get_or_create_configuration_error_witness :
    Client.get_or_create_collection ⟨[], ["vecs"], ["vector"]⟩ "docs" none none
      = (⟨[], ["vecs"], ["vector"]⟩,
         .error (.exc "One of dimension or adapter must provide a dimension")) :=
  get_or_create_configuration_error ⟨[], ["vecs"], ["vector"]⟩ "docs" none none
    rfl rfl (by decide)

/-- Claim C3: `get_or_create_collection` is idempotent.  First conjunct: when
the existing table reports the (positive) resolved dimension `d` and every
present hint agrees on `d`, the call returns the descriptor with the store
untouched.  Second conjunct: starting from a store with no table of the
requested (non-reserved) name, two successive calls with identical arguments
`dimension = d` both return the same descriptor, and exactly one table — the
one created by the first call — is appended.  Positivity and the
non-reserved-prefix restriction are the spec's own data-model invariants on
collections. -/
theorem get_or_create_idempotent (st : StoreState) (name : String) (d : Int)
    (hpos : 0 < d) (hname : startsWithUnderscore name = false) :
    (∀ (dimension : Option Int) (adapter : Option Adapter),
      lookupCollectionDimension st name = some d →
      (dimension = none ∨ dimension = some d) →
      (adapterDimension adapter = none ∨ adapterDimension adapter = some d) →
      Client.get_or_create_collection st name dimension adapter
        = (st, .ok ⟨name, d, adapter⟩)) ∧
    ((∀ t ∈ st.tables, ¬(t.relnamespace = "vecs" ∧ t.relname = name)) →
      Client.get_or_create_collection st name (some d) none
        = ({st with tables := st.tables ++ [⟨name, "vecs", true, true, d⟩]},
           .ok ⟨name, d, none⟩) ∧
      Client.get_or_create_collection
          {st with tables := st.tables ++ [⟨name, "vecs", true, true, d⟩]}
          name (some d) none
        = ({st with tables := st.tables ++ [⟨name, "vecs", true, true, d⟩]},
           .ok ⟨name, d, none⟩)) := by
  constructor
  · intro dimension adapter hlook hdim had
    exact get_or_create_reuse st name d dimension adapter hlook (by omega) hdim had
  · intro hfree
    refine ⟨get_or_create_creates st name d hfree, ?_⟩
    exact get_or_create_reuse _ name d (some d) none
      (lookup_after_create st name d hname hfree) (by omega) (Or.inr rfl) (Or.inl rfl)

/-- Witness for C3: two successive calls `get_or_create_collection "docs"
(dimension := 3)` on an initially empty store both return the descriptor
`⟨"docs", 3, none⟩` and create exactly one table, and a call against the
resulting store reuses it without mutation. -/
theorem get_or_create_idempotent_witness :
    (Client.get_or_create_collection
        ⟨[⟨"docs", "vecs", true, true, 3⟩], ["vecs"], ["vector"]⟩ "docs" (some 3) none
      = (⟨[⟨"docs", "vecs", true, true, 3⟩], ["vecs"], ["vector"]⟩, .ok ⟨"docs", 3, none⟩)) ∧
    (Client.get_or_create_collection ⟨[], ["vecs"], ["vector"]⟩ "docs" (some 3) none
      = (⟨[⟨"docs", "vecs", true, true, 3⟩], ["vecs"], ["vector"]⟩, .ok ⟨"docs", 3, none⟩)) :=
  ⟨(get_or_create_idempotent ⟨[⟨"docs", "vecs", true, true, 3⟩], ["vecs"], ["vector"]⟩
      "docs" 3 (by decide) (by decide)).1 (some 3) none (by decide) (Or.inr rfl) (Or.inl rfl),
   ((get_or_create_idempotent ⟨[], ["vecs"], ["vector"]⟩ "docs" 3 (by decide) (by decide)).2
      (by decide)).1⟩

/-- Claim C4 counterexample: the configuration-error case and the
dimension-conflict case of `get_or_create_collection` raise errors of the very
same kind (a bare `Exception`), so a caller cannot distinguish them by the
kind of the raised error alone, contrary to the claim. -/
theorem error_kinds_counterexample :
    (Client.get_or_create_collection ⟨[], ["vecs"], ["vector"]⟩ "docs" none none).2
      = .error (.exc "One of dimension or adapter must provide a dimension") ∧
    (Client.get_or_create_collection ⟨[], ["vecs"], ["vector"]⟩ "docs"
        (some 1) (some ⟨some 2⟩)).2
      = .error (.exc "Dimensions reported by adapter, dimension, and collection do not match") ∧
    VecsError.kind (.exc "One of dimension or adapter must provide a dimension")
      = VecsError.kind
          (.exc "Dimensions reported by adapter, dimension, and collection do not match") := by
  exact ⟨by decide, by decide, rfl⟩

/-- Claim C4 (amended): the configuration error and the dimension-conflict
error are both raised as the generic `Exception` kind and are distinguishable
only by their messages, while the not-found error carries the distinct
`CollectionNotFound` kind. -/
theorem error_kinds_amended (st : StoreState) (name : String)
    (d1 d2 : Int) (a : Adapter) (hne : d1 ≠ d2)
    (ha : a.exported_dimension = some d2)
    (hfree : ∀ t ∈ st.tables, ¬(t.relnamespace = "vecs" ∧ t.relname = name)) :
    ∃ m1 m2 m3,
      (Client.get_or_create_collection st name none none).2 = .error (.exc m1) ∧
      (Client.get_or_create_collection st name (some d1) (some a)).2 = .error (.exc m2) ∧
      Client.get_collection st name = .error (.collectionNotFound m3) ∧
      (VecsError.exc m1).kind = (VecsError.exc m2).kind ∧
      m1 ≠ m2 ∧
      (VecsError.collectionNotFound m3).kind ≠ (VecsError.exc m1).kind := by
  refine ⟨"One of dimension or adapter must provide a dimension",
    "Dimensions reported by adapter, dimension, and collection do not match",
    "No collection found with requested name", ?_, ?_, ?_, rfl, by decide, by decide⟩
  · rw [get_or_create_configuration_error st name none none rfl rfl hfree]
  · have hrep : reportedDimensions (some d1) (lookupCollectionDimension st name)
        (adapterDimension (some a)) = [d1, d2] := by
      rw [lookup_eq_none_of_no_table st name hfree,
        show adapterDimension (some a) = some d2 from ha]
      unfold reportedDimensions
      show ([d1, d2] : List Int).dedup = [d1, d2]
      rw [List.dedup_cons_of_not_mem (by simp [hne]), dedup_one]
    simp only [Client.get_or_create_collection, hrep]
    norm_num
  · unfold Client.get_collection lookupVecsRow
    rw [find?_vecs_none st name hfree]

/-- Witness for the amended C4: on an empty store, the three error cases
instantiate concretely with kinds Exception, Exception and CollectionNotFound. -/
theorem error_kinds_amended_witness :
    ∃ m1 m2 m3,
      (Client.get_or_create_collection ⟨[], ["vecs"], ["vector"]⟩ "docs" none none).2
        = .error (.exc m1) ∧
      (Client.get_or_create_collection ⟨[], ["vecs"], ["vector"]⟩ "docs"
          (some 1) (some ⟨some 2⟩)).2 = .error (.exc m2) ∧
      Client.get_collection ⟨[], ["vecs"], ["vector"]⟩ "docs"
        = .error (.collectionNotFound m3) ∧
      (VecsError.exc m1).kind = (VecsError.exc m2).kind ∧
      m1 ≠ m2 ∧
      (VecsError.collectionNotFound m3).kind ≠ (VecsError.exc m1).kind :=
  error_kinds_amended ⟨[], ["vecs"], ["vector"]⟩ "docs" 1 2 ⟨some 2⟩
    (by decide) rfl (by decide)

/-- Claim C5: any row returned by the metadata lookup is a table of the store
that lives in the `vecs` schema, is a plain table, has a `vec` attribute, does
not start with the reserved `_` prefix, and is named exactly the requested
name; and `list_collections` never returns a name starting with the reserved
`_` prefix. -/
theorem lookup_and_list_exclude_reserved (st : StoreState) (name : String) :
    (∀ t, lookupVecsRow st name = some t →
      t ∈ st.tables ∧ t.relnamespace = "vecs" ∧ t.relkindIsPlain = true ∧
      t.hasVecAttr = true ∧ startsWithUnderscore t.relname = false ∧
      t.relname = name) ∧
    (∀ c ∈ Client.list_collections st, startsWithUnderscore c.name = false) := by
  constructor
  · intro t ht
    have hmem := List.mem_of_find?_eq_some ht
    have hp := List.find?_some ht
    unfold matchesVecsQuery at hp
    simp only [Bool.and_eq_true, Bool.not_eq_true', beq_iff_eq] at hp
    exact ⟨hmem, hp.1.1.1.1, hp.1.1.1.2, hp.1.1.2, hp.1.2, hp.2⟩
  · intro c hc
    unfold Client.list_collections Collection.list_collections at hc
    rcases List.mem_map.mp hc with ⟨t, ht, rfl⟩
    have hp := (List.mem_filter.mp ht).2
    simp only [Bool.and_eq_true, Bool.not_eq_true'] at hp
    exact hp.2

/-- Witness for C5: a concrete matching row satisfies all the query
conditions, and the one name listed from a store holding a collection table
and an internal `_index` table does not start with `_`. -/
theorem lookup_and_list_exclude_reserved_witness :
    ((⟨"docs", "vecs", true, true, 3⟩ : PgTable)
        ∈ [(⟨"docs", "vecs", true, true, 3⟩ : PgTable),
           ⟨"_index", "vecs", true, true, 3⟩] ∧
      ("vecs" : String) = "vecs" ∧ (true = true) ∧ (true = true) ∧
      startsWithUnderscore "docs" = false ∧ ("docs" : String) = "docs") ∧
    startsWithUnderscore
        (Collection.name ⟨"docs", 3, none⟩) = false :=
  ⟨(lookup_and_list_exclude_reserved
      ⟨[⟨"docs", "vecs", true, true, 3⟩, ⟨"_index", "vecs", true, true, 3⟩],
        ["vecs"], ["vector"]⟩ "docs").1
      ⟨"docs", "vecs", true, true, 3⟩ (by decide),
   (lookup_and_list_exclude_reserved
      ⟨[⟨"docs", "vecs", true, true, 3⟩, ⟨"_index", "vecs", true, true, 3⟩],
        ["vecs"], ["vector"]⟩ "docs").2 ⟨"docs", 3, none⟩ (by decide)⟩

/-- Claim C6: `Client.__init__` bootstraps the store as one transaction whose
statements are exactly the two `create ... if not exists` statements for the
`vecs` schema and the `vector` extension; after it both exist, no table is
touched, and the bootstrap is idempotent (running it again is the identity on
the resulting state). -/
theorem client_init_bootstrap (st : StoreState) :
    Client.bootstrapStmts
      = [.createSchemaIfNotExists "vecs", .createExtensionIfNotExists "vector"] ∧
    Client.init st = runTransaction st Client.bootstrapStmts ∧
    "vecs" ∈ (Client.init st).schemas ∧
    "vector" ∈ (Client.init st).extensions ∧
    (Client.init st).tables = st.tables ∧
    Client.init (Client.init st) = Client.init st := by
  refine ⟨rfl, rfl, ?_, ?_, ?_, ?_⟩ <;>
    unfold Client.init runTransaction Client.bootstrapStmts <;>
    simp only [List.foldl_cons, List.foldl_nil] <;>
    unfold execStmt <;>
    by_cases h1 : "vecs" ∈ st.schemas <;> by_cases h2 : "vector" ∈ st.extensions <;>
    simp [h1, h2]

/-- Claim C7: the legacy `get_collection` raises `CollectionNotFound` exactly
when no table of the store matches the metadata query for the requested name,
and when the query returns a row it returns a descriptor whose dimension is
the row's declared vector width. -/
theorem get_collection_spec (st : StoreState) (name : String) :
    ((∃ m, Client.get_collection st name = .error (.collectionNotFound m)) ↔
      (∀ t ∈ st.tables, matchesVecsQuery name t = false)) ∧
    (∀ t, lookupVecsRow st name = some t →
      Client.get_collection st name = .ok ⟨t.relname, t.atttypmod, none⟩) := by
  constructor
  · constructor
    · rintro ⟨m, hm⟩ t ht
      unfold Client.get_collection at hm
      rcases hfind : lookupVecsRow st name with _ | t0
      · exact Bool.not_eq_true _ ▸ fun hp =>
          (List.find?_eq_none.mp hfind t ht) hp
      · rw [hfind] at hm
        cases hm
    · intro hnone
      refine ⟨"No collection found with requested name", ?_⟩
      unfold Client.get_collection lookupVecsRow
      rw [List.find?_eq_none.mpr fun t ht => by rw [hnone t ht]; exact Bool.false_ne_true]
  · intro t ht
    unfold Client.get_collection
    rw [ht]

/-- Witness for C7: on an empty store, `get_collection "docs"` raises
`CollectionNotFound`; on a store holding the `docs` table of width 3, it
returns the descriptor of width 3. -/
theorem get_collection_spec_witness :
    (∃ m, Client.get_collection ⟨[], ["vecs"], ["vector"]⟩ "docs"
        = .error (.collectionNotFound m)) ∧
    Client.get_collection ⟨[⟨"docs", "vecs", true, true, 3⟩], ["vecs"], ["vector"]⟩ "docs"
      = .ok ⟨"docs", 3, none⟩ :=
  ⟨(get_collection_spec ⟨[], ["vecs"], ["vector"]⟩ "docs").1.mpr (by decide),
   (get_collection_spec ⟨[⟨"docs", "vecs", true, true, 3⟩], ["vecs"], ["vector"]⟩ "docs").2
      ⟨"docs", "vecs", true, true, 3⟩ (by decide)⟩

/-- Claim C9: `delete_collection` constructs its descriptor with the fixed
sentinel dimension `-1` whatever the store holds, that sentinel violates the
positive-dimension attribute, the drop it delegates to depends only on the
descriptor's name (it never reads a dimension), and the success of the delete
is decided purely by existence of a table of that name in the `vecs` schema,
never by its dimension. -/
theorem delete_uses_sentinel_dimension (st : StoreState) (name : String) :
    Client.deleteDescriptor name = ⟨name, -1, none⟩ ∧
    ¬(0 < (Client.deleteDescriptor name).dimension) ∧
    (∀ c c2 : Collection, c.name = c2.name →
      Collection.drop c st = Collection.drop c2 st) ∧
    ((Client.delete_collection st name).2 = .ok () ↔
      ∃ t ∈ st.tables, t.relnamespace = "vecs" ∧ t.relname = name) := by
  refine ⟨rfl, by show ¬(0 : Int) < -1; norm_num, ?_, ?_⟩
  · intro c c2 h
    unfold Collection.drop
    rw [h]
  · unfold Client.delete_collection Collection.drop Client.deleteDescriptor
    rcases hany : st.tables.any
        (fun t => t.relnamespace == "vecs" && t.relname == name) with _ | _
    · simp only [hany, Bool.false_eq_true, if_false]
      constructor
      · intro h
        cases h
      · intro h
        rcases h with ⟨t, ht, h1, h2⟩
        rw [← Bool.not_eq_true] at hany
        exact absurd (List.any_eq_true.mpr
          ⟨t, ht, by simp [h1, h2]⟩) hany
    · simp only [hany, if_true]
      constructor
      · intro _
        rcases List.any_eq_true.mp hany with ⟨t, ht, hp⟩
        simp only [Bool.and_eq_true, beq_iff_eq] at hp
        exact ⟨t, ht, hp.1, hp.2⟩
      · intro _
        trivial

/-- Witness for C9: dropping via descriptors of dimension `-1` and `99` is
the same operation, and deleting `docs` from a store holding it succeeds. -/
theorem delete_uses_sentinel_dimension_witness :
    Collection.drop ⟨"docs", -1, none⟩ ⟨[], ["vecs"], ["vector"]⟩
      = Collection.drop ⟨"docs", 99, none⟩ ⟨[], ["vecs"], ["vector"]⟩ ∧
    (Client.delete_collection
        ⟨[⟨"docs", "vecs", true, true, 3⟩], ["vecs"], ["vector"]⟩ "docs").2 = .ok () :=
  ⟨(delete_uses_sentinel_dimension ⟨[], ["vecs"], ["vector"]⟩ "docs").2.2.1
      ⟨"docs", -1, none⟩ ⟨"docs", 99, none⟩ rfl,
   (delete_uses_sentinel_dimension
      ⟨[⟨"docs", "vecs", true, true, 3⟩], ["vecs"], ["vector"]⟩ "docs").2.2.2.mpr
      ⟨⟨"docs", "vecs", true, true, 3⟩, by decide, rfl, rfl⟩⟩

/-- Claim C10: when the metadata lookup reports an existing width of `0`, the
value `0` does enter the set of distinct reported dimensions, yet the
truthiness test driving the reuse-versus-create decision treats `some 0`
exactly like `none`, so the call with no other hints takes the create branch
even though a table of that name does exist in the `vecs` schema. -/
theorem get_or_create_zero_width_create_branch (st : StoreState) (name : String)
    (hlook : lookupCollectionDimension st name = some 0) :
    (0 : Int) ∈ reportedDimensions none (lookupCollectionDimension st name)
        (adapterDimension none) ∧
    intTruthy (some 0) = intTruthy none ∧
    Client.get_or_create_collection st name none none
      = Collection.create ⟨name, 0, none⟩ st ∧
    (∃ t ∈ st.tables, t.relnamespace = "vecs" ∧ t.relname = name) := by
  have hrep : reportedDimensions none (lookupCollectionDimension st name)
      (adapterDimension none) = [0] := by
    rw [hlook]
    unfold reportedDimensions adapterDimension
    exact dedup_one 0
  have hrep0 : reportedDimensions none (some 0) (adapterDimension none) = [0] := by
    unfold reportedDimensions adapterDimension
    exact dedup_one 0
  refine ⟨hrep ▸ List.mem_singleton.mpr rfl, rfl, ?_, ?_⟩
  · simp only [Client.get_or_create_collection, hlook, hrep0]
    norm_num [intTruthy]
  · unfold lookupCollectionDimension lookupVecsRow at hlook
    rcases hfind : st.tables.find? (matchesVecsQuery name) with _ | t
    · rw [hfind] at hlook
      cases hlook
    · have hp := List.find?_some hfind
      unfold matchesVecsQuery at hp
      simp only [Bool.and_eq_true, beq_iff_eq] at hp
      exact ⟨t, List.mem_of_find?_eq_some hfind, hp.1.1.1.1, hp.2⟩

/-- Witness for C10: on a store holding a `vecs` table `zed` whose `vec`
column has declared width `0`, the lookup reports `0`, yet the call takes the
create branch. -/
theorem get_or_create_zero_width_create_branch_witness :
    (0 : Int) ∈ reportedDimensions none
        (lookupCollectionDimension
          ⟨[⟨"zed", "vecs", true, true, 0⟩], ["vecs"], ["vector"]⟩ "zed")
        (adapterDimension none) ∧
    intTruthy (some 0) = intTruthy none ∧
    Client.get_or_create_collection
        ⟨[⟨"zed", "vecs", true, true, 0⟩], ["vecs"], ["vector"]⟩ "zed" none none
      = Collection.create ⟨"zed", 0, none⟩
          ⟨[⟨"zed", "vecs", true, true, 0⟩], ["vecs"], ["vector"]⟩ ∧
    (∃ t ∈ (StoreState.tables
        ⟨[⟨"zed", "vecs", true, true, 0⟩], ["vecs"], ["vector"]⟩),
      t.relnamespace = "vecs" ∧ t.relname = "zed") :=
  get_or_create_zero_width_create_branch
    ⟨[⟨"zed", "vecs", true, true, 0⟩], ["vecs"], ["vector"]⟩ "zed" (by decide)

end Vecs
